import Mathlib

/-!
Shallow embedding of `src/app.js` (Reliance-testcenter), a telephony
call-session WebSocket server.  JavaScript values that flow through the
message handlers are dynamic, so we model them with a small `JsValue`
type (undefined / null / NaN / bool / number / string / object) together
with JS truthiness and member access.  Integer arithmetic on sequence
numbers stays exact (claims only exercise integer inputs).  Timestamps:
the source stores `new Date().toISOString()` strings and subtracts the
corresponding `Date` objects; ISO strings round-trip milliseconds, so we
model every timestamp as the integer count of milliseconds since epoch.
-/

/-- Dynamic JavaScript value (the fragments the handlers touch). -/
inductive JsValue where
  | undefined : JsValue
  | null : JsValue
  | nan : JsValue
  | bool : Bool → JsValue
  | num : Int → JsValue
  | str : String → JsValue
  | obj : List (String × JsValue) → JsValue

namespace JsValue

/-- JS truthiness: `undefined`, `null`, `NaN`, `false`, `0`, `""` are falsy;
every object is truthy. -/
def truthy : JsValue → Bool
  | undefined => false
  | null => false
  | nan => false
  | bool b => b
  | num n => decide (n ≠ 0)
  | str s => decide (s ≠ "")
  | obj _ => true

/-- Member access `v.k`: first binding wins (JS objects have unique keys;
we build all objects with unique keys), `undefined` when absent or when
the receiver is not an object. -/
def getField : JsValue → String → JsValue
  | obj fields, k =>
    match fields.lookup k with
    | some v => v
    | none => undefined
  | _, _ => undefined

/-- JS `v + n` for an integer literal `n`, as used in
`message.sequence_number + 1` / `+ 1000`.  Numbers add; `null` coerces
to 0, booleans to 0/1, strings concatenate the decimal numeral,
`undefined`/`NaN`/objects give `NaN` (objects would stringify in JS, but
no claim exercises that corner and the handlers never add to objects). -/
def jsAdd : JsValue → Int → JsValue
  | num m, n => num (m + n)
  | null, n => num n
  | bool b, n => num ((if b then 1 else 0) + n)
  | str s, n => str (s ++ toString n)
  | _, _ => nan

/-- String interpolation `${v}` for the primitive values the error
messages interpolate. -/
def jsToString : JsValue → String
  | undefined => "undefined"
  | null => "null"
  | nan => "NaN"
  | bool b => if b then "true" else "false"
  | num n => toString n
  | str s => s
  | obj _ => "[object Object]"

end JsValue

/-! ## JS `Map` operations, on association lists with JS-Map semantics
(`set` replaces, keys unique). -/

/-- Map operation `m.get(k)`. -/
def mapGet {α : Type} (m : List (String × α)) (k : String) : Option α :=
  m.lookup k

/-- Map operation `m.delete(k)`. -/
def mapDelete {α : Type} (m : List (String × α)) (k : String) : List (String × α) :=
  m.filter (fun p => p.1 ≠ k)

/-- Map operation `m.set(k, v)`. -/
def mapSet {α : Type} (m : List (String × α)) (k : String) (v : α) : List (String × α) :=
  (k, v) :: mapDelete m k

theorem mapGet_mapDelete_self {α : Type} (m : List (String × α)) (k : String) :
    mapGet (mapDelete m k) k = none := by
  induction m with
  | nil => rfl
  | cons p m ih =>
    by_cases h : p.1 = k
    · simpa [mapDelete, List.filter_cons, h] using ih
    · have hk : (k == p.1) = false := by simp [Ne.symm h]
      simpa [mapDelete, List.filter_cons, h, mapGet, List.lookup, hk] using ih

/-! ## Session data model (`callStorage` records in `app.js`) -/

/-- Entry of `callData.audioChunks` (app.js:374–379).  `receivedAt` is the
`new Date().toISOString()` arrival time, as epoch milliseconds. -/
structure AudioChunk where
  chunk : JsValue
  timestamp : JsValue
  payloadSize : JsValue
  receivedAt : Int

/-- Entry of `callData.events` (app.js:243–249): the envelope is appended
verbatim, `payload` holds the whole message (`{ ...message }`). -/
structure EventLogEntry where
  event : JsValue
  sequence_number : JsValue
  stream_sid : JsValue
  timestamp : Int
  payload : JsValue

/-- The session record stored in `callStorage` (created at app.js:54–62,
mutated by the connection, message and close handlers).  Fields the
handlers overwrite with message payload values (`callSid`, `fromAddr`,
`toAddr`, `accountSid`, reasons, `mediaFormat`) are `JsValue`, absent
being `undefined` as in JS; timestamps are epoch-millisecond integers,
absent being `none`; `status` is the literal string the source assigns. -/
structure CallData where
  callSid : JsValue
  fromAddr : JsValue
  toAddr : JsValue
  startTime : Int
  status : String
  events : List EventLogEntry
  audioChunks : List AudioChunk
  wsConnectedTime : Option Int := none
  mediaFormat : JsValue := .undefined
  accountSid : JsValue := .undefined
  stopReason : JsValue := .undefined
  transferReason : JsValue := .undefined
  endTime : Option Int := none
  duration : Option Int := none

/-- The initial record built by the `/sampark` endpoint (app.js:54–64). -/
def initialCallData (callSid fromAddr toAddr : String) (now : Int) : CallData :=
  { callSid := .str callSid
    fromAddr := .str fromAddr
    toAddr := .str toAddr
    startTime := now
    status := "initiated"
    events := []
    audioChunks := [] }

/-- The three top-level in-memory maps (app.js:10–12). -/
structure ServerState where
  callStorage : List (String × CallData)
  activeConnections : List (String × Nat)
  tokenStorage : List (String × String)

/-- Function `generateWebSocketEndpoint` (app.js:33–39): issues a token bound to
`callSid` by storing it in `tokenStorage`.  The random token value is a
parameter; the URL string itself is irrelevant to the claims. -/
def generateWebSocketEndpoint (st : ServerState) (token callSid : String) : ServerState :=
  { st with tokenStorage := mapSet st.tokenStorage token callSid }

/-- JS `v.length`: only strings have one here (`message.media.payload.length`,
app.js:377). -/
def JsValue.jsLength : JsValue → JsValue
  | .str s => .num s.length
  | _ => .undefined

/-- JS `a || b` (app.js:340, `message.start.custom_parameters || {}`). -/
def JsValue.jsOr (a b : JsValue) : JsValue :=
  if a.truthy then a else b

/-! ## WebSocket event handlers (app.js:224–527) -/

/-- Result of running one message handler on a session record: the
updated record, the frames sent on the channel (in order), and whether a
delayed `ws.close` was scheduled (`setTimeout(… , 1000)`). -/
structure HandlerResult where
  callData : CallData
  sent : List JsValue
  scheduledClose : Bool

/-- The error envelope the handlers send
(`{event:"error", sequence_number, stream_sid: callSid, error}`). -/
def errorEnvelope (seq : JsValue) (callSid : String) (err : String) : JsValue :=
  .obj [("event", .str "error"), ("sequence_number", seq),
        ("stream_sid", .str callSid), ("error", .str err)]

/-- Negation of the rejection condition at app.js:293–304: the `start`
payload and each required field (including the nested `media_format`
fields) must be truthy. -/
def validStartPayload (m : JsValue) : Bool :=
  let s := m.getField "start"
  s.truthy && (s.getField "stream_sid").truthy && (s.getField "call_sid").truthy &&
  (s.getField "account_sid").truthy && (s.getField "from").truthy &&
  (s.getField "to").truthy && (s.getField "media_format").truthy &&
  ((s.getField "media_format").getField "encoding").truthy &&
  ((s.getField "media_format").getField "sample_rate").truthy &&
  ((s.getField "media_format").getField "bit_rate").truthy

/-- Negation of the rejection condition at app.js:355–360 (note the
source tests truthiness, not presence: `!message.media.chunk` rejects a
present `chunk` equal to `0`). -/
def validMediaPayload (m : JsValue) : Bool :=
  let md := m.getField "media"
  md.truthy && (md.getField "payload").truthy && (md.getField "chunk").truthy &&
  (md.getField "timestamp").truthy

/-- Negation of the rejection condition at app.js:427–432. -/
def validStopPayload (m : JsValue) : Bool :=
  let s := m.getField "stop"
  s.truthy && (s.getField "call_sid").truthy && (s.getField "account_sid").truthy &&
  (s.getField "reason").truthy

/-- Negation of the rejection condition at app.js:480–485. -/
def validXferPayload (m : JsValue) : Bool :=
  let x := m.getField "xfer"
  x.truthy && (x.getField "call_sid").truthy && (x.getField "account_sid").truthy &&
  (x.getField "reason").truthy

/-- Handler `handleStartEvent` (app.js:288–347), given the record found in
`callStorage`.  Note app.js:319 `upperCase: message.start.call_sid;` is a
labelled expression statement — it does NOT assign `callData.callSid`. -/
def handleStartEvent (callData : CallData) (callSid : String) (m : JsValue) : HandlerResult :=
  if validStartPayload m then
    let s := m.getField "start"
    { callData := { callData with
        status := "started"
        mediaFormat := s.getField "media_format"
        accountSid := s.getField "account_sid"
        fromAddr := s.getField "from"
        toAddr := s.getField "to" }
      sent := [.obj [("event", .str "start"),
                     ("sequence_number", (m.getField "sequence_number").jsAdd 1),
                     ("stream_sid", m.getField "stream_sid"),
                     ("start", .obj [("stream_sid", s.getField "stream_sid"),
                                     ("call_sid", s.getField "call_sid"),
                                     ("account_sid", s.getField "account_sid"),
                                     ("from", s.getField "from"),
                                     ("to", s.getField "to"),
                                     ("custom_parameters",
                                       (s.getField "custom_parameters").jsOr (.obj [])),
                                     ("media_format", s.getField "media_format")])]]
      scheduledClose := false }
  else
    { callData := callData
      sent := [errorEnvelope ((m.getField "sequence_number").jsAdd 1) callSid
                 "Invalid start payload"]
      scheduledClose := false }

/-- Whether `Buffer.from(v, "base64")` (app.js:392) throws: for a string
argument Node's base64 decoder is lenient and never throws; numbers,
booleans, `null` and plain objects raise `TypeError`. -/
def bufferFromThrows : JsValue → Bool
  | .str _ => false
  | _ => true

/-- Handler `handleMediaEvent` (app.js:350–419).  The chunk metadata push
(app.js:381) precedes the `try` block, so it happens even when
`Buffer.from` throws and the "Failed to process audio chunk" error
envelope is sent instead of the echo. -/
def handleMediaEvent (callData : CallData) (callSid : String) (m : JsValue) (now : Int) :
    HandlerResult :=
  if validMediaPayload m then
    let md := m.getField "media"
    let audioChunk : AudioChunk :=
      { chunk := md.getField "chunk"
        timestamp := md.getField "timestamp"
        payloadSize := (md.getField "payload").jsLength
        receivedAt := now }
    let callData := { callData with audioChunks := callData.audioChunks ++ [audioChunk] }
    if bufferFromThrows (md.getField "payload") then
      { callData := callData
        sent := [errorEnvelope ((m.getField "sequence_number").jsAdd 1) callSid
                   "Failed to process audio chunk"]
        scheduledClose := false }
    else
      { callData := callData
        sent := [.obj [("event", .str "media"),
                       ("sequence_number", (m.getField "sequence_number").jsAdd 1000),
                       ("stream_sid", .str callSid),
                       ("media", .obj [("chunk", md.getField "chunk"),
                                       ("timestamp", .str (toString now)),
                                       ("payload", md.getField "payload")])]]
        scheduledClose := false }
  else
    { callData := callData
      sent := [errorEnvelope ((m.getField "sequence_number").jsAdd 1) callSid
                 "Invalid media payload"]
      scheduledClose := false }

/-- Handler `handleStopEvent` (app.js:422–472). -/
def handleStopEvent (callData : CallData) (callSid : String) (m : JsValue) (now : Int) :
    HandlerResult :=
  if validStopPayload m then
    let s := m.getField "stop"
    { callData := { callData with
        status := "stopped"
        stopReason := s.getField "reason"
        callSid := s.getField "call_sid"
        accountSid := s.getField "account_sid"
        endTime := some now }
      sent := [.obj [("event", .str "stop"),
                     ("sequence_number", (m.getField "sequence_number").jsAdd 1),
                     ("stream_sid", m.getField "stream_sid"),
                     ("stop", .obj [("call_sid", s.getField "call_sid"),
                                    ("account_sid", s.getField "account_sid"),
                                    ("reason", s.getField "reason")])]]
      scheduledClose := true }
  else
    { callData := callData
      sent := [errorEnvelope ((m.getField "sequence_number").jsAdd 1) callSid
                 "Invalid stop payload"]
      scheduledClose := false }

/-- Handler `handleXferEvent` (app.js:475–527). -/
def handleXferEvent (callData : CallData) (callSid : String) (m : JsValue) (now : Int) :
    HandlerResult :=
  if validXferPayload m then
    let x := m.getField "xfer"
    { callData := { callData with
        status := "transferred"
        transferReason := x.getField "reason"
        callSid := x.getField "call_sid"
        accountSid := x.getField "account_sid"
        endTime := some now }
      sent := [.obj [("event", .str "xfer"),
                     ("sequence_number", (m.getField "sequence_number").jsAdd 1),
                     ("stream_sid", m.getField "stream_sid"),
                     ("xfer", .obj [("call_sid", x.getField "call_sid"),
                                    ("account_sid", x.getField "account_sid"),
                                    ("reason", x.getField "reason")])]]
      scheduledClose := true }
  else
    { callData := callData
      sent := [errorEnvelope ((m.getField "sequence_number").jsAdd 1) callSid
                 "Invalid xfer payload"]
      scheduledClose := false }

/-- The log entry `handleWebSocketEvent` appends before dispatch
(app.js:243–249); `payload` is the shallow copy `{ ...message }`. -/
def eventLogEntry (m : JsValue) (now : Int) : EventLogEntry :=
  { event := m.getField "event"
    sequence_number := m.getField "sequence_number"
    stream_sid := m.getField "stream_sid"
    timestamp := now
    payload := m }

/-- The body of `handleWebSocketEvent` (app.js:224–285) after the
call-data null check: append the event to the log, then dispatch on
`message.event`. -/
def handleWebSocketEventCd (callSid : String) (m : JsValue) (callData : CallData)
    (now : Int) : HandlerResult :=
  let callData := { callData with events := callData.events ++ [eventLogEntry m now] }
  match m.getField "event" with
  | .str "start" => handleStartEvent callData callSid m
  | .str "media" => handleMediaEvent callData callSid m now
  | .str "stop" => handleStopEvent callData callSid m now
  | .str "xfer" => handleXferEvent callData callSid m now
  | ev =>
    { callData := callData
      sent := [errorEnvelope ((m.getField "sequence_number").jsAdd 1) callSid
                 ("Unknown event type: " ++ ev.jsToString)]
      scheduledClose := false }

/-- Dispatcher `handleWebSocketEvent` (app.js:224–285) including the missing-record
branch (app.js:227–240), acting on the session's `callStorage` entry. -/
def handleWebSocketEvent (callSid : String) (m : JsValue) (callData : Option CallData)
    (now : Int) : Option CallData × List JsValue × Bool :=
  match callData with
  | none =>
    (none,
     [errorEnvelope ((m.getField "sequence_number").jsAdd 1) callSid "Call data not found"],
     false)
  | some cd =>
    let r := handleWebSocketEventCd callSid m cd now
    (some r.callData, r.sent, r.scheduledClose)

/-! ## Connection, close and raw-message handlers (app.js:145–221) -/

/-- Outcome of a connection attempt: `rejected` is
`ws.close(1008, "Invalid callSid or token")`. -/
inductive ConnOutcome where
  | rejected : ConnOutcome
  | accepted : ConnOutcome
  deriving DecidableEq, Repr

/-- Connection handler `wss.on("connection")` (app.js:145–173).  `callSid`/`token` are the
query parameters (`none` when absent); `!callSid || !token` also rejects
empty strings.  On success the token is deleted, the channel is stored
in `activeConnections` (an unconditional `set` — there is no check that
the session already has a live channel), and the record, when present,
moves to `connected`. -/
def wssOnConnection (st : ServerState) (callSid token : Option String) (ws : Nat)
    (now : Int) : ServerState × ConnOutcome :=
  match callSid, token with
  | some sid, some tok =>
    if sid = "" || tok = "" || !(mapGet st.tokenStorage tok == some sid) then
      (st, .rejected)
    else
      let st := { st with tokenStorage := mapDelete st.tokenStorage tok }
      let st := { st with activeConnections := mapSet st.activeConnections sid ws }
      match mapGet st.callStorage sid with
      | some cd =>
        let cd := { cd with status := "connected", wsConnectedTime := some now }
        ({ st with callStorage := mapSet st.callStorage sid cd }, .accepted)
      | none => (st, .accepted)
  | _, _ => (st, .rejected)

/-- JS `Math.round(d / 1000)` for an integer millisecond difference `d`
(app.js:212): `Math.round x = ⌊x + 1/2⌋`, and
`⌊d/1000 + 1/2⌋ = ⌊(d + 500)/1000⌋` exactly. -/
def mathRoundDiv1000 (d : Int) : Int :=
  Int.fdiv (d + 500) 1000

/-- The record update in `ws.on("close")` (app.js:205–214).  The source
guards the duration computation by `if (callData.startTime)`, but
`startTime` is always the truthy ISO string written by `/sampark`, so
the branch is always taken.  The status is overwritten to
`"disconnected"` unconditionally — there is no terminal-status check. -/
def wsOnCloseCd (cd : CallData) (now : Int) : CallData :=
  { cd with
    status := "disconnected"
    endTime := some now
    duration := some (mathRoundDiv1000 (now - cd.startTime)) }

/-- Close handler `ws.on("close")` (app.js:196–215): drop the registry entry and
update the record when present. -/
def wsOnClose (st : ServerState) (callSid : String) (now : Int) : ServerState :=
  let st := { st with activeConnections := mapDelete st.activeConnections callSid }
  match mapGet st.callStorage callSid with
  | some cd =>
    { st with callStorage := mapSet st.callStorage callSid (wsOnCloseCd cd now) }
  | none => st

/-- Outcome of the raw-message handler. -/
inductive MessageOutcome where
  | handled : Option CallData → List JsValue → Bool → MessageOutcome
  | uncaughtReferenceError : MessageOutcome

/-- Raw-message handler `ws.on("message")` (app.js:176–193).  `parsed` is the result of
`JSON.parse(data.toString())`: `none` models a frame that is not valid
JSON.  In that case control reaches the catch block, whose expression
`message?.sequence_number` references the variable `message` — but
`message` is declared with `const` INSIDE the `try` block (app.js:178)
and is block-scoped there, so it is not in scope in the catch block:
evaluating it throws a `ReferenceError` before `ws.send` is reached, and
no error envelope is sent. -/
def wsOnMessage (callSid : String) (callData : Option CallData) (parsed : Option JsValue)
    (now : Int) : MessageOutcome :=
  match parsed with
  | some m =>
    let r := handleWebSocketEvent callSid m callData now
    .handled r.1 r.2.1 r.2.2
  | none => .uncaughtReferenceError

/-- Frames sent by the raw-message handler. -/
def MessageOutcome.sentFrames : MessageOutcome → List JsValue
  | .handled _ sent _ => sent
  | .uncaughtReferenceError => []

/-- Fold `handleWebSocketEventCd` over a sequence of inbound envelopes
(a session's channel delivers events strictly in order), keeping the
record. -/
def processEvents (callSid : String) (now : Int) : CallData → List JsValue → CallData
  | cd, [] => cd
  | cd, m :: ms => processEvents callSid now (handleWebSocketEventCd callSid m cd now).callData ms

/-! ## Concrete envelopes (the scenario of spec §8) used by witnesses and
counterexamples -/

/-- A valid `start` envelope with sequence number 0. -/
def startMsgEx : JsValue :=
  .obj [("event", .str "start"), ("sequence_number", .num 0), ("stream_sid", .str "S1"),
        ("start", .obj [("stream_sid", .str "S1"), ("call_sid", .str "C1"),
                        ("account_sid", .str "A1"), ("from", .str "+1"), ("to", .str "+2"),
                        ("media_format", .obj [("encoding", .str "pcmu"),
                                               ("sample_rate", .num 8000),
                                               ("bit_rate", .num 64000)])])]

/-- A valid `media` envelope with sequence number 1 and base64 payload. -/
def mediaMsgEx : JsValue :=
  .obj [("event", .str "media"), ("sequence_number", .num 1), ("stream_sid", .str "S1"),
        ("media", .obj [("chunk", .num 1), ("payload", .str "QQ=="),
                        ("timestamp", .str "1")])]

/-- A valid `stop` envelope with sequence number 2. -/
def stopMsgEx : JsValue :=
  .obj [("event", .str "stop"), ("sequence_number", .num 2), ("stream_sid", .str "S1"),
        ("stop", .obj [("call_sid", .str "C1"), ("account_sid", .str "A1"),
                       ("reason", .str "completed")])]

/-! ## Helper lemmas about the handlers (shared by several claims) -/

theorem handleStartEvent_invalid (cd : CallData) (sid : String) (m : JsValue)
    (h : validStartPayload m = false) :
    handleStartEvent cd sid m =
      { callData := cd
        sent := [errorEnvelope ((m.getField "sequence_number").jsAdd 1) sid
                   "Invalid start payload"]
        scheduledClose := false } := by
  simp [handleStartEvent, h]

theorem handleMediaEvent_invalid (cd : CallData) (sid : String) (m : JsValue) (now : Int)
    (h : validMediaPayload m = false) :
    handleMediaEvent cd sid m now =
      { callData := cd
        sent := [errorEnvelope ((m.getField "sequence_number").jsAdd 1) sid
                   "Invalid media payload"]
        scheduledClose := false } := by
  simp [handleMediaEvent, h]

theorem handleStopEvent_invalid (cd : CallData) (sid : String) (m : JsValue) (now : Int)
    (h : validStopPayload m = false) :
    handleStopEvent cd sid m now =
      { callData := cd
        sent := [errorEnvelope ((m.getField "sequence_number").jsAdd 1) sid
                   "Invalid stop payload"]
        scheduledClose := false } := by
  simp [handleStopEvent, h]

theorem handleXferEvent_invalid (cd : CallData) (sid : String) (m : JsValue) (now : Int)
    (h : validXferPayload m = false) :
    handleXferEvent cd sid m now =
      { callData := cd
        sent := [errorEnvelope ((m.getField "sequence_number").jsAdd 1) sid
                   "Invalid xfer payload"]
        scheduledClose := false } := by
  simp [handleXferEvent, h]

theorem handleStartEvent_valid_status (cd : CallData) (sid : String) (m : JsValue)
    (h : validStartPayload m = true) :
    (handleStartEvent cd sid m).callData.status = "started" := by
  simp [handleStartEvent, h]

theorem handleStartEvent_invalid_status (cd : CallData) (sid : String) (m : JsValue)
    (h : validStartPayload m = false) :
    (handleStartEvent cd sid m).callData.status = cd.status := by
  simp [handleStartEvent_invalid cd sid m h]

theorem handleMediaEvent_status (cd : CallData) (sid : String) (m : JsValue) (now : Int) :
    (handleMediaEvent cd sid m now).callData.status = cd.status := by
  unfold handleMediaEvent
  split
  · dsimp only
    split <;> rfl
  · rfl

theorem handleStopEvent_valid_status (cd : CallData) (sid : String) (m : JsValue) (now : Int)
    (h : validStopPayload m = true) :
    (handleStopEvent cd sid m now).callData.status = "stopped" := by
  simp [handleStopEvent, h]

theorem handleStopEvent_invalid_status (cd : CallData) (sid : String) (m : JsValue) (now : Int)
    (h : validStopPayload m = false) :
    (handleStopEvent cd sid m now).callData.status = cd.status := by
  simp [handleStopEvent_invalid cd sid m now h]

theorem handleXferEvent_valid_status (cd : CallData) (sid : String) (m : JsValue) (now : Int)
    (h : validXferPayload m = true) :
    (handleXferEvent cd sid m now).callData.status = "transferred" := by
  simp [handleXferEvent, h]

theorem handleXferEvent_invalid_status (cd : CallData) (sid : String) (m : JsValue) (now : Int)
    (h : validXferPayload m = false) :
    (handleXferEvent cd sid m now).callData.status = cd.status := by
  simp [handleXferEvent_invalid cd sid m now h]

theorem wsOnCloseCd_status (cd : CallData) (now : Int) :
    (wsOnCloseCd cd now).status = "disconnected" := rfl

theorem handleWebSocketEventCd_start (sid : String) (m : JsValue) (cd : CallData) (now : Int)
    (h : m.getField "event" = .str "start") :
    handleWebSocketEventCd sid m cd now =
      handleStartEvent { cd with events := cd.events ++ [eventLogEntry m now] } sid m := by
  unfold handleWebSocketEventCd
  rw [h]
  rfl

theorem handleWebSocketEventCd_media (sid : String) (m : JsValue) (cd : CallData) (now : Int)
    (h : m.getField "event" = .str "media") :
    handleWebSocketEventCd sid m cd now =
      handleMediaEvent { cd with events := cd.events ++ [eventLogEntry m now] } sid m now := by
  unfold handleWebSocketEventCd
  rw [h]
  rfl

theorem handleWebSocketEventCd_stop (sid : String) (m : JsValue) (cd : CallData) (now : Int)
    (h : m.getField "event" = .str "stop") :
    handleWebSocketEventCd sid m cd now =
      handleStopEvent { cd with events := cd.events ++ [eventLogEntry m now] } sid m now := by
  unfold handleWebSocketEventCd
  rw [h]
  rfl

theorem handleWebSocketEventCd_xfer (sid : String) (m : JsValue) (cd : CallData) (now : Int)
    (h : m.getField "event" = .str "xfer") :
    handleWebSocketEventCd sid m cd now =
      handleXferEvent { cd with events := cd.events ++ [eventLogEntry m now] } sid m now := by
  unfold handleWebSocketEventCd
  rw [h]
  rfl

theorem processEvents_media_status (sid : String) (now : Int) (cd : CallData)
    (medias : List JsValue) (hm : ∀ m ∈ medias, m.getField "event" = .str "media") :
    (processEvents sid now cd medias).status = cd.status := by
  induction medias generalizing cd with
  | nil => rfl
  | cons m ms ih =>
    rw [processEvents, ih _ (fun x hx => hm x (List.mem_cons_of_mem m hx)),
        handleWebSocketEventCd_media sid m cd now (hm m (List.mem_cons_self m ms)),
        handleMediaEvent_status]

/-- A record already in the purportedly terminal status `stopped`. -/
def cdStoppedEx : CallData :=
  { initialCallData "C1" "+1" "+2" 0 with status := "stopped" }

/-- Claim C1, counterexample: running the valid scenario
start → media → stop and then the post-ack channel close (which the stop
handler schedules at app.js:468–470) leaves the record in status
`disconnected`, not `stopped` — the close handler at app.js:207
overwrites the status unconditionally. -/
theorem c1_counterexample :
    (wsOnCloseCd (processEvents "C1" 100 (initialCallData "C1" "+1" "+2" 0)
        [startMsgEx, mediaMsgEx, stopMsgEx]) 200).status = "disconnected" ∧
    (wsOnCloseCd (processEvents "C1" 100 (initialCallData "C1" "+1" "+2" 0)
        [startMsgEx, mediaMsgEx, stopMsgEx]) 200).status ≠ "stopped" :=
  ⟨rfl, by decide⟩

/-- Claim C1, amended: for every valid start → media×N → stop sequence
processed on a session record, the status is `started` after the start
event, still `started` after the media events, and exactly `stopped`
after the stop event — but when the post-ack channel close completes,
the close handler overwrites the status to `disconnected`; it does not
remain `stopped`. -/
theorem c1_stop_status_until_close (sid fromA toA : String) (t0 now tClose : Int)
    (startMsg stopMsg : JsValue) (medias : List JsValue)
    (hstartEv : startMsg.getField "event" = .str "start")
    (hstartValid : validStartPayload startMsg = true)
    (hmedias : ∀ m ∈ medias, m.getField "event" = .str "media")
    (hstopEv : stopMsg.getField "event" = .str "stop")
    (hstopValid : validStopPayload stopMsg = true) :
    (handleWebSocketEventCd sid startMsg (initialCallData sid fromA toA t0)
        now).callData.status = "started" ∧
    (processEvents sid now (handleWebSocketEventCd sid startMsg
        (initialCallData sid fromA toA t0) now).callData medias).status = "started" ∧
    (handleWebSocketEventCd sid stopMsg (processEvents sid now
        (handleWebSocketEventCd sid startMsg (initialCallData sid fromA toA t0)
          now).callData medias) now).callData.status = "stopped" ∧
    (wsOnCloseCd (handleWebSocketEventCd sid stopMsg (processEvents sid now
        (handleWebSocketEventCd sid startMsg (initialCallData sid fromA toA t0)
          now).callData medias) now).callData tClose).status = "disconnected" := by
  have h1 : (handleWebSocketEventCd sid startMsg (initialCallData sid fromA toA t0)
      now).callData.status = "started" := by
    rw [handleWebSocketEventCd_start sid startMsg _ now hstartEv]
    exact handleStartEvent_valid_status _ sid startMsg hstartValid
  have h2 : (processEvents sid now (handleWebSocketEventCd sid startMsg
      (initialCallData sid fromA toA t0) now).callData medias).status = "started" := by
    rw [processEvents_media_status sid now _ medias hmedias, h1]
  have h3 : (handleWebSocketEventCd sid stopMsg (processEvents sid now
      (handleWebSocketEventCd sid startMsg (initialCallData sid fromA toA t0)
        now).callData medias) now).callData.status = "stopped" := by
    rw [handleWebSocketEventCd_stop sid stopMsg _ now hstopEv]
    exact handleStopEvent_valid_status _ sid stopMsg now hstopValid
  exact ⟨h1, h2, h3, wsOnCloseCd_status _ tClose⟩

/-- Claim C1, witness: the amended theorem instantiated on the concrete
scenario of spec §8. -/
theorem c1_stop_status_until_close_witness :
    (handleWebSocketEventCd "C1" startMsgEx (initialCallData "C1" "+1" "+2" 0)
        100).callData.status = "started" ∧
    (processEvents "C1" 100 (handleWebSocketEventCd "C1" startMsgEx
        (initialCallData "C1" "+1" "+2" 0) 100).callData [mediaMsgEx]).status = "started" ∧
    (handleWebSocketEventCd "C1" stopMsgEx (processEvents "C1" 100
        (handleWebSocketEventCd "C1" startMsgEx (initialCallData "C1" "+1" "+2" 0)
          100).callData [mediaMsgEx]) 100).callData.status = "stopped" ∧
    (wsOnCloseCd (handleWebSocketEventCd "C1" stopMsgEx (processEvents "C1" 100
        (handleWebSocketEventCd "C1" startMsgEx (initialCallData "C1" "+1" "+2" 0)
          100).callData [mediaMsgEx]) 100).callData 200).status = "disconnected" :=
  c1_stop_status_until_close "C1" "+1" "+2" 0 100 200 startMsgEx stopMsgEx [mediaMsgEx]
    rfl rfl (fun m hm => by rw [List.mem_singleton.mp hm]; rfl) rfl rfl

/-- Claim C2, counterexample: a record in the purportedly terminal status
`stopped` is moved to `started` by a subsequently processed valid start
event — no handler consults the current status, so `stopped` is not
terminal. -/
theorem c2_counterexample :
    (handleWebSocketEventCd "C1" startMsgEx cdStoppedEx 5).callData.status = "started" ∧
    ("started" : String) ≠ "stopped" :=
  ⟨rfl, by decide⟩

/-- Claim C2, amended: no status is terminal, because the handlers never
consult the current status.  For a record in any status whatsoever
(including `stopped`, `transferred` and `disconnected`): a valid start
event sets the status to `started`, a valid stop to `stopped`, a valid
xfer to `transferred`, and a channel close to `disconnected`; media
events, and start/stop/xfer events failing validation, leave the status
unchanged. -/
theorem c2_no_status_is_terminal (cd : CallData) (sid : String) (m : JsValue)
    (now tClose : Int) :
    (validStartPayload m = true → (handleStartEvent cd sid m).callData.status = "started") ∧
    (validStartPayload m = false → (handleStartEvent cd sid m).callData.status = cd.status) ∧
    (handleMediaEvent cd sid m now).callData.status = cd.status ∧
    (validStopPayload m = true → (handleStopEvent cd sid m now).callData.status = "stopped") ∧
    (validStopPayload m = false → (handleStopEvent cd sid m now).callData.status = cd.status) ∧
    (validXferPayload m = true →
      (handleXferEvent cd sid m now).callData.status = "transferred") ∧
    (validXferPayload m = false →
      (handleXferEvent cd sid m now).callData.status = cd.status) ∧
    (wsOnCloseCd cd tClose).status = "disconnected" :=
  ⟨handleStartEvent_valid_status cd sid m, handleStartEvent_invalid_status cd sid m,
   handleMediaEvent_status cd sid m now, handleStopEvent_valid_status cd sid m now,
   handleStopEvent_invalid_status cd sid m now, handleXferEvent_valid_status cd sid m now,
   handleXferEvent_invalid_status cd sid m now, wsOnCloseCd_status cd tClose⟩

/-- Claim C2, witness: instantiating the amended theorem on a `stopped`
record — a valid start event restarts it, and a channel close marks it
`disconnected`. -/
theorem c2_no_status_is_terminal_witness :
    (handleStartEvent cdStoppedEx "C1" startMsgEx).callData.status = "started" ∧
    (wsOnCloseCd cdStoppedEx 9).status = "disconnected" :=
  ⟨(c2_no_status_is_terminal cdStoppedEx "C1" startMsgEx 0 9).1 rfl,
   (c2_no_status_is_terminal cdStoppedEx "C1" startMsgEx 0 9).2.2.2.2.2.2.2⟩

/-- Field access on the four-field ack/echo envelopes the handlers build:
the `sequence_number` member is the second binding. -/
theorem getField_ack_seq (e q s4 p : JsValue) (k : String) :
    (JsValue.obj [("event", e), ("sequence_number", q), ("stream_sid", s4),
                  (k, p)]).getField "sequence_number" = q := rfl

/-- Field access on the four-field ack/echo envelopes: the `event` member
is the first binding. -/
theorem getField_ack_event (e q s4 p : JsValue) (k : String) :
    (JsValue.obj [("event", e), ("sequence_number", q), ("stream_sid", s4),
                  (k, p)]).getField "event" = e := rfl

/-- Claim C3: for a media event passing field validation whose payload is
a string (every base64 audio payload; for non-string truthy payloads
`Buffer.from` throws and an error envelope is sent instead of an ack),
the single emitted echo/ack carries sequence number S+1000; for control
events (start, stop, xfer) passing field validation, the single emitted
ack carries sequence number S+1. -/
theorem c3_ack_sequence_numbers (cd : CallData) (sid : String) (m : JsValue)
    (S : Int) (now : Int)
    (hseq : m.getField "sequence_number" = .num S) :
    (validMediaPayload m = true →
      ∀ p, (m.getField "media").getField "payload" = .str p →
      ∃ ack, (handleMediaEvent cd sid m now).sent = [ack] ∧
             ack.getField "event" = .str "media" ∧
             ack.getField "sequence_number" = .num (S + 1000)) ∧
    (validStartPayload m = true →
      ∃ ack, (handleStartEvent cd sid m).sent = [ack] ∧
             ack.getField "sequence_number" = .num (S + 1)) ∧
    (validStopPayload m = true →
      ∃ ack, (handleStopEvent cd sid m now).sent = [ack] ∧
             ack.getField "sequence_number" = .num (S + 1)) ∧
    (validXferPayload m = true →
      ∃ ack, (handleXferEvent cd sid m now).sent = [ack] ∧
             ack.getField "sequence_number" = .num (S + 1)) := by
  refine ⟨?_, ?_, ?_, ?_⟩
  · intro hv p hp
    have hthrow : bufferFromThrows ((m.getField "media").getField "payload") = false := by
      rw [hp]; rfl
    have hsent : (handleMediaEvent cd sid m now).sent =
        [.obj [("event", .str "media"),
               ("sequence_number", (m.getField "sequence_number").jsAdd 1000),
               ("stream_sid", .str sid),
               ("media", .obj [("chunk", (m.getField "media").getField "chunk"),
                               ("timestamp", .str (toString now)),
                               ("payload", (m.getField "media").getField "payload")])]] := by
      simp [handleMediaEvent, hv, hthrow]
    exact ⟨_, hsent, getField_ack_event _ _ _ _ _,
           by rw [getField_ack_seq, hseq]; rfl⟩
  · intro hv
    have hsent : (handleStartEvent cd sid m).sent =
        [.obj [("event", .str "start"),
               ("sequence_number", (m.getField "sequence_number").jsAdd 1),
               ("stream_sid", m.getField "stream_sid"),
               ("start", .obj [("stream_sid", (m.getField "start").getField "stream_sid"),
                               ("call_sid", (m.getField "start").getField "call_sid"),
                               ("account_sid", (m.getField "start").getField "account_sid"),
                               ("from", (m.getField "start").getField "from"),
                               ("to", (m.getField "start").getField "to"),
                               ("custom_parameters",
                                 ((m.getField "start").getField "custom_parameters").jsOr
                                   (.obj [])),
                               ("media_format",
                                 (m.getField "start").getField "media_format")])]] := by
      simp [handleStartEvent, hv]
    exact ⟨_, hsent, by rw [getField_ack_seq, hseq]; rfl⟩
  · intro hv
    have hsent : (handleStopEvent cd sid m now).sent =
        [.obj [("event", .str "stop"),
               ("sequence_number", (m.getField "sequence_number").jsAdd 1),
               ("stream_sid", m.getField "stream_sid"),
               ("stop", .obj [("call_sid", (m.getField "stop").getField "call_sid"),
                              ("account_sid", (m.getField "stop").getField "account_sid"),
                              ("reason", (m.getField "stop").getField "reason")])]] := by
      simp [handleStopEvent, hv]
    exact ⟨_, hsent, by rw [getField_ack_seq, hseq]; rfl⟩
  · intro hv
    have hsent : (handleXferEvent cd sid m now).sent =
        [.obj [("event", .str "xfer"),
               ("sequence_number", (m.getField "sequence_number").jsAdd 1),
               ("stream_sid", m.getField "stream_sid"),
               ("xfer", .obj [("call_sid", (m.getField "xfer").getField "call_sid"),
                              ("account_sid", (m.getField "xfer").getField "account_sid"),
                              ("reason", (m.getField "xfer").getField "reason")])]] := by
      simp [handleXferEvent, hv]
    exact ⟨_, hsent, by rw [getField_ack_seq, hseq]; rfl⟩

/-- Claim C3, witness: on the concrete scenario, the media echo for
sequence number 1 carries 1001 and the stop ack for sequence number 2
carries 3. -/
theorem c3_ack_sequence_numbers_witness :
    (∃ ack, (handleMediaEvent (initialCallData "C1" "+1" "+2" 0) "C1" mediaMsgEx
        100).sent = [ack] ∧
      ack.getField "event" = .str "media" ∧
      ack.getField "sequence_number" = .num (1 + 1000)) ∧
    (∃ ack, (handleStopEvent (initialCallData "C1" "+1" "+2" 0) "C1" stopMsgEx
        100).sent = [ack] ∧
      ack.getField "sequence_number" = .num (2 + 1)) :=
  ⟨(c3_ack_sequence_numbers (initialCallData "C1" "+1" "+2" 0) "C1" mediaMsgEx 1 100
      rfl).1 rfl "QQ==" rfl,
   (c3_ack_sequence_numbers (initialCallData "C1" "+1" "+2" 0) "C1" stopMsgEx 2 100
      rfl).2.2.1 rfl⟩

theorem mapGet_mapSet_self {α : Type} (m : List (String × α)) (k : String) (v : α) :
    mapGet (mapSet m k v) k = some v := by
  simp [mapGet, mapSet, List.lookup]

theorem wssOnConnection_rejected (st : ServerState) (sid tok : String) (ws : Nat)
    (now : Int) (h : sid = "" ∨ tok = "" ∨ mapGet st.tokenStorage tok ≠ some sid) :
    wssOnConnection st (some sid) (some tok) ws now = (st, .rejected) := by
  rcases h with h | h | h <;> simp [wssOnConnection, h]

theorem wssOnConnection_accepted (st : ServerState) (sid tok : String) (ws : Nat)
    (now : Int) (hsid : sid ≠ "") (htok : tok ≠ "")
    (hbound : mapGet st.tokenStorage tok = some sid) :
    (wssOnConnection st (some sid) (some tok) ws now).2 = .accepted ∧
    mapGet (wssOnConnection st (some sid) (some tok) ws now).1.activeConnections sid =
      some ws ∧
    (wssOnConnection st (some sid) (some tok) ws now).1.tokenStorage =
      mapDelete st.tokenStorage tok := by
  have hcond : (sid = "" || tok = "" || !(mapGet st.tokenStorage tok == some sid)) = false := by
    simp [hsid, htok, hbound]
  unfold wssOnConnection
  dsimp only
  rw [hcond]
  cases hcs : mapGet st.callStorage sid with
  | some cd => simp [hcs, mapGet_mapSet_self]
  | none => simp [hcs, mapGet_mapSet_self]

/-- Server state with a live channel (handle 1) already bound for session
`C1`, and a freshly issued second token `t2` for the same session. -/
def stC4Ex : ServerState :=
  { callStorage := [("C1", initialCallData "C1" "+1" "+2" 0)]
    activeConnections := [("C1", 1)]
    tokenStorage := [("t2", "C1")] }

/-- Claim C4, counterexample: session `C1` already has a live channel
(handle 1), yet a second connection attempt presenting a fresh valid
token is ACCEPTED, and the registry entry is replaced by the new channel
(handle 2) — the connection handler never checks `activeConnections`. -/
theorem c4_counterexample :
    (wssOnConnection stC4Ex (some "C1") (some "t2") 2 5).2 = .accepted ∧
    mapGet (wssOnConnection stC4Ex (some "C1") (some "t2") 2 5).1.activeConnections "C1" =
      some 2 ∧
    (2 : Nat) ≠ 1 := by
  refine ⟨rfl, rfl, by decide⟩

/-- Claim C4, amended: a second connection attempt for a session id with
a live channel is rejected only when its token check fails (absent or
empty parameters, or a token not currently bound to that session id), in
which case the whole server state — the original registry entry included
— is unchanged; an attempt presenting a fresh valid token is accepted
and the registry entry for the session id is replaced by the new
channel. -/
theorem c4_second_connection_replaces_channel (st : ServerState) (sid tok : String)
    (ws : Nat) (now : Int) :
    ((sid = "" ∨ tok = "" ∨ mapGet st.tokenStorage tok ≠ some sid) →
      wssOnConnection st (some sid) (some tok) ws now = (st, .rejected)) ∧
    (sid ≠ "" → tok ≠ "" → mapGet st.tokenStorage tok = some sid →
      (wssOnConnection st (some sid) (some tok) ws now).2 = .accepted ∧
      mapGet (wssOnConnection st (some sid) (some tok) ws now).1.activeConnections sid =
        some ws) :=
  ⟨wssOnConnection_rejected st sid tok ws now,
   fun hsid htok hbound =>
     ⟨(wssOnConnection_accepted st sid tok ws now hsid htok hbound).1,
      (wssOnConnection_accepted st sid tok ws now hsid htok hbound).2.1⟩⟩

/-- Claim C4, witness: both branches of the amended theorem exercised on
concrete states — a stale-token attempt is rejected leaving the state
unchanged, and a fresh-token attempt on `stC4Ex` replaces the entry. -/
theorem c4_second_connection_replaces_channel_witness :
    wssOnConnection stC4Ex (some "C1") (some "stale") 2 5 = (stC4Ex, .rejected) ∧
    (wssOnConnection stC4Ex (some "C1") (some "t2") 2 5).2 = .accepted ∧
    mapGet (wssOnConnection stC4Ex (some "C1") (some "t2") 2 5).1.activeConnections "C1" =
      some 2 :=
  ⟨(c4_second_connection_replaces_channel stC4Ex "C1" "stale" 2 5).1
     (Or.inr (Or.inr (by decide))),
   (c4_second_connection_replaces_channel stC4Ex "C1" "t2" 2 5).2
     (by decide) (by decide) (by decide)⟩

/-- Claim C5: contrary to the claim, a frame that is not valid JSON on a
bound channel produces NO error envelope at all: the catch block's
`message?.sequence_number` (app.js:185) references `message`, which is
`const`-declared inside the `try` block and hence out of scope in the
catch block, so a `ReferenceError` is thrown before `ws.send` runs.
Evaluated at the failing input (a bound session, an unparsable frame). -/
theorem c5_invalid_json_sends_nothing :
    wsOnMessage "C1" (some (initialCallData "C1" "+1" "+2" 0)) none 5 =
      .uncaughtReferenceError ∧
    (wsOnMessage "C1" (some (initialCallData "C1" "+1" "+2" 0)) none 5).sentFrames = [] :=
  ⟨rfl, rfl⟩

/-- Claim C6, counterexample: a session started at t=0 ms and closed at
t=1500 ms records duration 2 (app.js:212 uses `Math.round`), while the
floor of 1.5 s is 1. -/
theorem c6_counterexample :
    (wsOnCloseCd (initialCallData "C1" "+1" "+2" 0) 1500).duration = some 2 ∧
    ((1500 : Int) - 0).fdiv 1000 = 1 ∧
    (2 : Int) ≠ 1 := by
  refine ⟨rfl, rfl, by decide⟩

/-- Claim C6, amended: when the close handler runs, the recorded duration
is (endTime − startTime) in seconds rounded to the NEAREST whole second
with halves rounding up (JS `Math.round`), not floor-rounded: the
recorded value k satisfies 1000k − 500 ≤ endTime − startTime < 1000k + 500. -/
theorem c6_duration_is_nearest_second (cd : CallData) (now : Int) :
    ∃ k, (wsOnCloseCd cd now).duration = some k ∧
         1000 * k - 500 ≤ now - cd.startTime ∧
         now - cd.startTime < 1000 * k + 500 := by
  refine ⟨mathRoundDiv1000 (now - cd.startTime), rfl, ?_, ?_⟩ <;>
  · unfold mathRoundDiv1000
    rw [Int.fdiv_eq_ediv _ (by norm_num)]
    omega

/-- A media-format value already negotiated by an earlier start event. -/
def oldFormatEx : JsValue := .str "previously-negotiated"

/-- The media format carried by `startMsgEx`. -/
def newFormatEx : JsValue :=
  .obj [("encoding", .str "pcmu"), ("sample_rate", .num 8000), ("bit_rate", .num 64000)]

/-- A record whose media format is already set. -/
def cdWithFormatEx : CallData :=
  { initialCallData "C1" "+1" "+2" 0 with mediaFormat := oldFormatEx }

/-- Claim C7, counterexample: a record whose media format is already set
has it OVERWRITTEN by a further valid start event — `handleStartEvent`
assigns `callData.mediaFormat` unconditionally (app.js:318), so the
format is not immutable after it is first set. -/
theorem c7_counterexample :
    (handleStartEvent cdWithFormatEx "C1" startMsgEx).callData.mediaFormat = newFormatEx ∧
    newFormatEx ≠ oldFormatEx :=
  ⟨rfl, fun h => JsValue.noConfusion h⟩

/-- Claim C7, amended: every VALID start event (re)sets the stored media
format to the event's `media_format`, overwriting any previously stored
value; an invalid start event, a media/stop/xfer event, and a channel
close leave the stored media format unchanged. -/
theorem c7_media_format_overwritten_by_start (cd : CallData) (sid : String)
    (m : JsValue) (now tClose : Int) :
    (validStartPayload m = true →
      (handleStartEvent cd sid m).callData.mediaFormat =
        (m.getField "start").getField "media_format") ∧
    (validStartPayload m = false →
      (handleStartEvent cd sid m).callData.mediaFormat = cd.mediaFormat) ∧
    (handleMediaEvent cd sid m now).callData.mediaFormat = cd.mediaFormat ∧
    (handleStopEvent cd sid m now).callData.mediaFormat = cd.mediaFormat ∧
    (handleXferEvent cd sid m now).callData.mediaFormat = cd.mediaFormat ∧
    (wsOnCloseCd cd tClose).mediaFormat = cd.mediaFormat := by
  refine ⟨fun h => by simp [handleStartEvent, h], fun h => by simp [handleStartEvent, h],
          ?_, ?_, ?_, rfl⟩
  · unfold handleMediaEvent
    split
    · dsimp only
      split <;> rfl
    · rfl
  · unfold handleStopEvent
    split <;> rfl
  · unfold handleXferEvent
    split <;> rfl

/-- Claim C7, witness: the amended theorem instantiated on a record with
an already-set media format and the concrete valid start event. -/
theorem c7_media_format_overwritten_by_start_witness :
    (handleStartEvent cdWithFormatEx "C1" startMsgEx).callData.mediaFormat =
      (startMsgEx.getField "start").getField "media_format" :=
  (c7_media_format_overwritten_by_start cdWithFormatEx "C1" startMsgEx 0 0).1 rfl

/-- Claim C8: an admission token admits exactly one connection.  A first
successful bind consumes the token (`tokenStorage.delete`, app.js:159),
so any later attempt presenting the same token is rejected; and a token
presented together with a session id other than the one it is bound to
is rejected (`tokenStorage.get(token) !== callSid`, app.js:150). -/
theorem c8_token_admits_exactly_one_connection (st : ServerState) (tok sid : String)
    (ws : Nat) (now : Int)
    (hbound : mapGet st.tokenStorage tok = some sid)
    (hsid : sid ≠ "") (htok : tok ≠ "") :
    (wssOnConnection st (some sid) (some tok) ws now).2 = .accepted ∧
    (∀ sid2 ws2 now2, (wssOnConnection (wssOnConnection st (some sid) (some tok) ws now).1
        (some sid2) (some tok) ws2 now2).2 = .rejected) ∧
    (∀ sid2 ws2 now2, sid2 ≠ sid →
      (wssOnConnection st (some sid2) (some tok) ws2 now2).2 = .rejected) := by
  obtain ⟨hacc, hreg, htokSt⟩ := wssOnConnection_accepted st sid tok ws now hsid htok hbound
  refine ⟨hacc, ?_, ?_⟩
  · intro sid2 ws2 now2
    have hnone : mapGet (wssOnConnection st (some sid) (some tok) ws now).1.tokenStorage
        tok = none := by
      rw [htokSt]; exact mapGet_mapDelete_self _ _
    rw [wssOnConnection_rejected _ sid2 tok ws2 now2
         (Or.inr (Or.inr (by rw [hnone]; exact fun h => Option.noConfusion h)))]
  · intro sid2 ws2 now2 hne
    have hmis : mapGet st.tokenStorage tok ≠ some sid2 := by
      rw [hbound]
      exact fun h => hne (Option.some.inj h).symm
    rw [wssOnConnection_rejected st sid2 tok ws2 now2 (Or.inr (Or.inr hmis))]

/-- Server state for the C8 witness: token `tokA` bound to session `C1`,
no live connection yet. -/
def stC8Ex : ServerState :=
  { callStorage := [("C1", initialCallData "C1" "+1" "+2" 0)]
    activeConnections := []
    tokenStorage := [("tokA", "C1")] }

/-- Claim C8, witness: concrete first bind accepted; replaying the same
token rejected; presenting the token with a different session id
rejected. -/
theorem c8_token_admits_exactly_one_connection_witness :
    (wssOnConnection stC8Ex (some "C1") (some "tokA") 1 5).2 = .accepted ∧
    (wssOnConnection (wssOnConnection stC8Ex (some "C1") (some "tokA") 1 5).1
        (some "C1") (some "tokA") 2 6).2 = .rejected ∧
    (wssOnConnection stC8Ex (some "C2") (some "tokA") 2 6).2 = .rejected :=
  have r := c8_token_admits_exactly_one_connection stC8Ex "tokA" "C1" 1 5 rfl
    (by decide) (by decide)
  ⟨r.1, r.2.1 "C1" 2 6, r.2.2 "C2" 2 6 (by decide)⟩

/-- Claim C9: a well-formed envelope of a known kind failing its
kind-specific field validation (in particular, missing required fields)
makes the dispatcher append the envelope to the event log and send back
exactly one error envelope with the inbound sequence number plus one;
the record is otherwise untouched (status and media format unchanged). -/
theorem c9_validation_failure_logs_and_errors (cd : CallData) (sid : String)
    (m : JsValue) (S : Int) (now : Int)
    (hseq : m.getField "sequence_number" = .num S)
    (hkind : (m.getField "event" = .str "start" ∧ validStartPayload m = false) ∨
             (m.getField "event" = .str "media" ∧ validMediaPayload m = false) ∨
             (m.getField "event" = .str "stop" ∧ validStopPayload m = false) ∨
             (m.getField "event" = .str "xfer" ∧ validXferPayload m = false)) :
    ∃ err, handleWebSocketEvent sid m (some cd) now =
      (some { cd with events := cd.events ++ [eventLogEntry m now] },
       [errorEnvelope (.num (S + 1)) sid err], false) := by
  have hadd : (m.getField "sequence_number").jsAdd 1 = .num (S + 1) := by
    rw [hseq]; rfl
  rcases hkind with ⟨hev, hval⟩ | ⟨hev, hval⟩ | ⟨hev, hval⟩ | ⟨hev, hval⟩
  · exact ⟨"Invalid start payload", by
      simp [handleWebSocketEvent, handleWebSocketEventCd_start sid m cd now hev,
            handleStartEvent_invalid _ sid m hval, hadd]⟩
  · exact ⟨"Invalid media payload", by
      simp [handleWebSocketEvent, handleWebSocketEventCd_media sid m cd now hev,
            handleMediaEvent_invalid _ sid m now hval, hadd]⟩
  · exact ⟨"Invalid stop payload", by
      simp [handleWebSocketEvent, handleWebSocketEventCd_stop sid m cd now hev,
            handleStopEvent_invalid _ sid m now hval, hadd]⟩
  · exact ⟨"Invalid xfer payload", by
      simp [handleWebSocketEvent, handleWebSocketEventCd_xfer sid m cd now hev,
            handleXferEvent_invalid _ sid m now hval, hadd]⟩

/-- A well-formed start envelope missing most required start fields. -/
def badStartMsgEx : JsValue :=
  .obj [("event", .str "start"), ("sequence_number", .num 5), ("stream_sid", .str "S1"),
        ("start", .obj [("stream_sid", .str "S1")])]

/-- Claim C9, witness: the concrete start envelope missing its required
fields is logged and answered with one error envelope carrying sequence
number 6. -/
theorem c9_validation_failure_logs_and_errors_witness :
    ∃ err, handleWebSocketEvent "C1" badStartMsgEx
        (some (initialCallData "C1" "+1" "+2" 0)) 7 =
      (some { initialCallData "C1" "+1" "+2" 0 with
                events := (initialCallData "C1" "+1" "+2" 0).events ++
                  [eventLogEntry badStartMsgEx 7] },
       [errorEnvelope (.num (5 + 1)) "C1" err], false) :=
  c9_validation_failure_logs_and_errors (initialCallData "C1" "+1" "+2" 0) "C1"
    badStartMsgEx 5 7 rfl (Or.inl ⟨rfl, rfl⟩)

/-- Claim C10: the media required-field checks test truthiness rather
than presence (app.js:355–360), so a media event whose `media.chunk` is
the number 0, or whose `media.payload` or `media.timestamp` is any falsy
value (e.g. the empty string), is rejected with an "Invalid media
payload" error envelope and leaves the record untouched — even when all
required fields are present. -/
theorem c10_truthiness_rejects_falsy_media_fields (cd : CallData) (sid : String)
    (m : JsValue) (now : Int)
    (hfalsy : (m.getField "media").getField "chunk" = .num 0 ∨
              ((m.getField "media").getField "payload").truthy = false ∨
              ((m.getField "media").getField "timestamp").truthy = false) :
    handleMediaEvent cd sid m now =
      { callData := cd
        sent := [errorEnvelope ((m.getField "sequence_number").jsAdd 1) sid
                   "Invalid media payload"]
        scheduledClose := false } := by
  apply handleMediaEvent_invalid
  rcases hfalsy with h | h | h
  · simp [validMediaPayload, h, JsValue.truthy]
  · simp [validMediaPayload, h]
  · simp [validMediaPayload, h]

/-- A media envelope with all required fields present but `chunk` 0. -/
def chunkZeroMsgEx : JsValue :=
  .obj [("event", .str "media"), ("sequence_number", .num 3), ("stream_sid", .str "S1"),
        ("media", .obj [("chunk", .num 0), ("payload", .str "QQ=="),
                        ("timestamp", .str "1")])]

/-- Claim C10, witness: the chunk-0 media envelope (all fields present)
is rejected with the "Invalid media payload" error envelope. -/
theorem c10_truthiness_rejects_falsy_media_fields_witness :
    handleMediaEvent (initialCallData "C1" "+1" "+2" 0) "C1" chunkZeroMsgEx 9 =
      { callData := initialCallData "C1" "+1" "+2" 0
        sent := [errorEnvelope ((chunkZeroMsgEx.getField "sequence_number").jsAdd 1) "C1"
                   "Invalid media payload"]
        scheduledClose := false } :=
  c10_truthiness_rejects_falsy_media_fields (initialCallData "C1" "+1" "+2" 0) "C1"
    chunkZeroMsgEx 9 (Or.inl rfl)
